import Mathlib

/-!
Shallow embedding of the ArgonOne lxpanel applet's device-state client
(src/lxpanel/argonone.c) together with theorems about its behaviour.

The applet keeps a small "model": fan speed (gint32), temperature
(gdouble), a fan-control-enabled flag and two display preferences.  It is
seeded by three synchronous D-Bus queries at startup, kept fresh by the
`argonone_dbus_signal` handler, and drives the daemon through
`_argonone_set_fan`.

Modelling choices:
* `gint32` fan speed is modelled as `Int` (the code only stores it and
  compares it with 0; no arithmetic that could overflow occurs).
* `gdouble` temperature is modelled as `Rat`; the code only copies the
  value out of the incoming variant, so no floating-point operation is
  ever performed on it.
* A `GVariant` payload is a sum of the three wire types the applet
  unmarshals ("i", "b", "d").  Calling `g_variant_get` with a format that
  does not match the variant is a GLib precondition violation (undefined
  behaviour); the embedding leaves the target field untouched in that
  unreachable branch.
* GUI calls (`argonone_update_view`) are recorded as a list of
  `UpdateViewCall` values, one per invocation, preserving argument order.
* D-Bus commands issued by `_argonone_set_fan` are recorded as a list of
  `DBusCommand` values in issue order.
-/

/-- Wire values carried by notifications and query replies
(formats "i", "b", "d" of `g_variant_get`). -/
inductive GVariant where
  | vInt (i : Int)
  | vBool (b : Bool)
  | vDouble (d : Rat)
deriving DecidableEq, Repr

def GVariant.getInt : GVariant → Option Int
  | .vInt i => some i
  | _ => none

def GVariant.getBool : GVariant → Option Bool
  | .vBool b => some b
  | _ => none

def GVariant.getDouble : GVariant → Option Rat
  | .vDouble d => some d
  | _ => none

/-- The plugin's model state (`ArgonOnePlugin` struct, "Model" fields only:
widget pointers carry no state of their own). -/
structure ArgonOnePlugin where
  show_label : Bool
  include_temperature : Bool
  fan_speed : Int
  temperature : Rat
  is_fan_control_enabled : Bool
deriving DecidableEq, Repr

/-- One invocation of `argonone_update_view (aone, fan_changed, config_updated)`:
the downstream observer callback. `fan_changed` is the control-relevant flag,
`config_updated` the config-relevant flag. -/
structure UpdateViewCall where
  fan_changed : Bool
  config_updated : Bool
deriving DecidableEq, Repr

/- Event-name string constants (NOTIFY_VALUE_* macros). -/
def NOTIFY_VALUE_TEMPERATURE : String := "temperature"
def NOTIFY_VALUE_FAN_SPEED : String := "fan_speed"
def NOTIFY_VALUE_FAN_CONTROL_ENABLED : String := "fan_control_enabled"
def NOTIFY_VALUE_POWER_CONTROL_ENABLED : String := "power_control_enabled"

/-- The g-signal handler `argonone_dbus_signal`.  `sender_name = none`
models a NULL sender (event synthesized by the object manager).
`parameters` is the "(sv)" pair carried by `NotifyValue`; other signal
names ignore it.  Returns the new state and the `argonone_update_view`
invocations made, in order. -/
def argonone_dbus_signal (aone : ArgonOnePlugin) (sender_name : Option String)
    (signal_name : String) (parameters : String × GVariant) :
    ArgonOnePlugin × List UpdateViewCall :=
  match sender_name with
  | none => (aone, [])
  | some _ =>
    let step : ArgonOnePlugin × Bool :=
      if signal_name = "NotifyValue" then
        let event_name := parameters.1
        let value_var := parameters.2
        if event_name = NOTIFY_VALUE_FAN_SPEED then
          match value_var.getInt with
          | some i => ({ aone with fan_speed := i }, true)
          | none => (aone, true)
        else if event_name = NOTIFY_VALUE_FAN_CONTROL_ENABLED then
          match value_var.getBool with
          | some b => ({ aone with is_fan_control_enabled := b }, true)
          | none => (aone, true)
        else if event_name = NOTIFY_VALUE_TEMPERATURE then
          match value_var.getDouble with
          | some d => ({ aone with temperature := d }, false)
          | none => (aone, false)
        else
          (aone, false)
      else
        (aone, false)
    (step.1, [{ fan_changed := step.2, config_updated := false }])

/-- A delivered bus signal: sender, signal name, "(sv)" parameters. -/
structure DBusEvent where
  sender_name : Option String
  signal_name : String
  parameters : String × GVariant
deriving DecidableEq, Repr

def deliver (aone : ArgonOnePlugin) (e : DBusEvent) :
    ArgonOnePlugin × List UpdateViewCall :=
  argonone_dbus_signal aone e.sender_name e.signal_name e.parameters

/-- Deliver a sequence of bus signals, concatenating the observer calls. -/
def deliverAll (aone : ArgonOnePlugin) :
    List DBusEvent → ArgonOnePlugin × List UpdateViewCall
  | [] => (aone, [])
  | e :: es =>
    let r := deliver aone e
    let rest := deliverAll r.1 es
    (rest.1, r.2 ++ rest.2)

/-- Number of deliveries in a sequence that actually change the state
(a "distinct value change"). -/
def countStateChanges (aone : ArgonOnePlugin) : List DBusEvent → Nat
  | [] => 0
  | e :: es =>
    let r := deliver aone e
    (if r.1 = aone then 0 else 1) + countStateChanges r.1 es

/-- D-Bus commands issued towards the daemon. -/
inductive DBusCommand where
  | setFanControlEnabled (enabled : Bool)
  | setFanSpeed (speed : Int)
deriving DecidableEq, Repr

/-- `_argonone_set_fan`: sends `SetFanControlEnabled(enabled)`, then
`SetFanSpeed(fan_speed)` only when `fan_speed >= 0` (a negative value
denotes "keep current").  Returns the issued commands in order. -/
def _argonone_set_fan (enabled : Bool) (fan_speed : Int) : List DBusCommand :=
  .setFanControlEnabled enabled ::
    (if fan_speed ≥ 0 then [.setFanSpeed fan_speed] else [])

/-- `argonone_dbus_method_call_sync`: a failed call (`reply = none`) is
logged and absorbed; the reply (or NULL) is returned, no error escapes. -/
def argonone_dbus_method_call_sync (reply : Option GVariant) : Option GVariant :=
  reply

/-- `argonone_dbus_query_sync`: on a NULL reply returns FALSE and leaves
`value` untouched; otherwise unmarshals the reply into `value` and
returns TRUE.  (A reply whose wire type does not match the format string
is a GLib precondition violation; the embedding leaves `value` there.) -/
def argonone_dbus_query_sync {α : Type} (reply : Option GVariant)
    (extract : GVariant → Option α) (value : α) : α × Bool :=
  match argonone_dbus_method_call_sync reply with
  | none => (value, false)
  | some rv => ((extract rv).getD value, true)

/-- The two config-store lookups (`ShowLabel`, `IncludeTemperature`):
`none` models a key absent from the settings group. -/
structure PluginSettings where
  showLabel : Option Int
  includeTemperature : Option Int
deriving DecidableEq, Repr

/-- `argonone_update_from_settings`: each flag is overwritten only when
its key is present; "(value == 1)" gives the boolean. -/
def argonone_update_from_settings (aone : ArgonOnePlugin)
    (s : PluginSettings) : ArgonOnePlugin :=
  let a1 :=
    match s.showLabel with
    | some v => { aone with show_label := v = 1 }
    | none => aone
  match s.includeTemperature with
  | some v => { a1 with include_temperature := v = 1 }
  | none => a1

/-- Replies of the three startup queries; `none` models a failed call. -/
structure StartupReplies where
  getFanSpeed : Option GVariant
  getFanControlEnabled : Option GVariant
  getTemperature : Option GVariant
deriving DecidableEq, Repr

/-- State as assembled by `argonone_constructor` once the proxy exists:
`g_new0` zero-fill, explicit defaults (show_label=TRUE,
include_temperature=FALSE, is_fan_control_enabled=TRUE, fan_speed=-1;
temperature stays 0.0 from the zero-fill), settings update, then the
three synchronous queries, each leaving its field alone on failure. -/
def argonone_constructor_state (settings : PluginSettings)
    (replies : StartupReplies) : ArgonOnePlugin :=
  let aone : ArgonOnePlugin :=
    { show_label := false, include_temperature := false,
      fan_speed := 0, temperature := 0, is_fan_control_enabled := false }
  let aone := { aone with show_label := true, include_temperature := false }
  let aone := { aone with is_fan_control_enabled := true, fan_speed := -1 }
  let aone := argonone_update_from_settings aone settings
  let aone := { aone with
    fan_speed :=
      (argonone_dbus_query_sync replies.getFanSpeed GVariant.getInt
        aone.fan_speed).1 }
  let aone := { aone with
    is_fan_control_enabled :=
      (argonone_dbus_query_sync replies.getFanControlEnabled GVariant.getBool
        aone.is_fan_control_enabled).1 }
  { aone with
    temperature :=
      (argonone_dbus_query_sync replies.getTemperature GVariant.getDouble
        aone.temperature).1 }

/-- `argonone_constructor`: if the proxy cannot be created (`conn = false`)
`g_error` aborts construction (modelled as `none`); otherwise construction
completes with the assembled state regardless of query outcomes. -/
def argonone_constructor (conn : Bool) (settings : PluginSettings)
    (replies : StartupReplies) : Option ArgonOnePlugin :=
  if conn then some (argonone_constructor_state settings replies) else none

/-- Concrete startup state used by counterexamples and witnesses. -/
def initialModel : ArgonOnePlugin :=
  { show_label := true, include_temperature := false,
    fan_speed := -1, temperature := 0, is_fan_control_enabled := true }

/-- A concrete fan_speed=42 notification from the daemon. -/
def fanSpeed42 : DBusEvent :=
  { sender_name := some ":1.7", signal_name := "NotifyValue",
    parameters := (NOTIFY_VALUE_FAN_SPEED, .vInt 42) }

/-- Claim C1: a NotifyValue notification with a non-null sender carrying a
recognized key updates exactly the model field corresponding to that key
and leaves every other field unchanged.  The structure-update equalities
pin down all five fields at once; `power_control_enabled` has no
corresponding model field (accepted but not surfaced), so the state is
unchanged. -/
theorem argonone_dbus_signal_recognized_key_exact_update
    (aone : ArgonOnePlugin) (sender : String) (i : Int) (b p : Bool) (d : Rat) :
    (argonone_dbus_signal aone (some sender) "NotifyValue"
        (NOTIFY_VALUE_FAN_SPEED, .vInt i)).1 = { aone with fan_speed := i } ∧
    (argonone_dbus_signal aone (some sender) "NotifyValue"
        (NOTIFY_VALUE_FAN_CONTROL_ENABLED, .vBool b)).1
      = { aone with is_fan_control_enabled := b } ∧
    (argonone_dbus_signal aone (some sender) "NotifyValue"
        (NOTIFY_VALUE_TEMPERATURE, .vDouble d)).1
      = { aone with temperature := d } ∧
    (argonone_dbus_signal aone (some sender) "NotifyValue"
        (NOTIFY_VALUE_POWER_CONTROL_ENABLED, .vBool p)).1 = aone :=
  ⟨rfl, rfl, rfl, rfl⟩

/-- Claim C4: a signal with a NULL sender (synthesized by the object
manager) is a complete no-op for every signal name and payload: the state
is returned untouched and no `argonone_update_view` call is made. -/
theorem argonone_dbus_signal_null_sender_noop
    (aone : ArgonOnePlugin) (signal_name : String) (p : String × GVariant) :
    argonone_dbus_signal aone none signal_name p = (aone, []) :=
  rfl

/-- Claim C5: a fan_speed or fan_control_enabled notification invokes
`argonone_update_view` with `fan_changed = TRUE`; a temperature
notification invokes it with `fan_changed = FALSE` (so only the
always-dirty status text refreshes, not the icon). -/
theorem argonone_dbus_signal_control_relevance
    (aone : ArgonOnePlugin) (sender : String) (i : Int) (b : Bool) (d : Rat) :
    (argonone_dbus_signal aone (some sender) "NotifyValue"
        (NOTIFY_VALUE_FAN_SPEED, .vInt i)).2
      = [{ fan_changed := true, config_updated := false }] ∧
    (argonone_dbus_signal aone (some sender) "NotifyValue"
        (NOTIFY_VALUE_FAN_CONTROL_ENABLED, .vBool b)).2
      = [{ fan_changed := true, config_updated := false }] ∧
    (argonone_dbus_signal aone (some sender) "NotifyValue"
        (NOTIFY_VALUE_TEMPERATURE, .vDouble d)).2
      = [{ fan_changed := false, config_updated := false }] :=
  ⟨rfl, rfl, rfl⟩

/-- Claim C7: a NotifyValue notification (non-null sender) whose key is
none of the four recognized keys leaves the whole model state unchanged. -/
theorem argonone_dbus_signal_unknown_key_frame
    (aone : ArgonOnePlugin) (sender : String) (key : String) (v : GVariant)
    (h1 : key ≠ NOTIFY_VALUE_FAN_SPEED)
    (h2 : key ≠ NOTIFY_VALUE_FAN_CONTROL_ENABLED)
    (h3 : key ≠ NOTIFY_VALUE_TEMPERATURE)
    (_h4 : key ≠ NOTIFY_VALUE_POWER_CONTROL_ENABLED) :
    (argonone_dbus_signal aone (some sender) "NotifyValue" (key, v)).1 = aone := by
  simp [argonone_dbus_signal, h1, h2, h3]

/-- Witness for the unknown-key frame property at key "humidity". -/
theorem argonone_dbus_signal_unknown_key_frame_witness :
    ("humidity" ≠ NOTIFY_VALUE_FAN_SPEED) ∧
    (argonone_dbus_signal initialModel (some ":1.7") "NotifyValue"
        ("humidity", .vInt 7)).1 = initialModel :=
  ⟨by decide,
   argonone_dbus_signal_unknown_key_frame initialModel ":1.7" "humidity"
     (.vInt 7) (by decide) (by decide) (by decide) (by decide)⟩

/-- Claim C10: every signal with a non-null sender causes exactly one
`argonone_update_view` invocation, always with `config_updated = FALSE`;
a null sender causes none. -/
theorem argonone_dbus_signal_refresh_count
    (aone : ArgonOnePlugin) (sn : Option String) (sig : String)
    (p : String × GVariant) :
    (argonone_dbus_signal aone sn sig p).2.length
        = (if sn.isSome then 1 else 0) ∧
    ((argonone_dbus_signal aone sn sig p).2.map (fun c => c.config_updated)
        = if sn.isSome then [false] else []) := by
  cases sn <;> exact ⟨rfl, rfl⟩

/-- The signal handler is idempotent: re-delivering the event to the state
it produced yields the same state and the same observer call, since every
branch stores a value taken from the event, not from the state. -/
theorem argonone_dbus_signal_idem (aone : ArgonOnePlugin) (sn : Option String)
    (sig : String) (p : String × GVariant) :
    argonone_dbus_signal (argonone_dbus_signal aone sn sig p).1 sn sig p
      = argonone_dbus_signal aone sn sig p := by
  obtain ⟨key, v⟩ := p
  cases sn with
  | none => rfl
  | some s =>
    by_cases h1 : sig = "NotifyValue"
    · subst h1
      by_cases h2 : key = NOTIFY_VALUE_FAN_SPEED
      · subst h2
        cases v <;> rfl
      · by_cases h3 : key = NOTIFY_VALUE_FAN_CONTROL_ENABLED
        · subst h3
          cases v <;> rfl
        · by_cases h4 : key = NOTIFY_VALUE_TEMPERATURE
          · subst h4
            cases v <;> rfl
          · simp [argonone_dbus_signal, h2, h3, h4]
    · simp [argonone_dbus_signal, h1]

/-- Counterexample to claim C2 as stated: from the startup state, the
fan_speed=42 notification delivered twice produces ONE distinct value
change (-1 to 42, the second delivery changes nothing) yet TWO refresh
signals — `argonone_update_view` runs once per delivery, so the
refresh-signal count does not behave "as if applied once per distinct
value change".  The state part of the claim does hold. -/
theorem duplicate_delivery_refresh_count_cex :
    (deliverAll initialModel [fanSpeed42, fanSpeed42]).1
        = (deliverAll initialModel [fanSpeed42]).1 ∧
    countStateChanges initialModel [fanSpeed42, fanSpeed42] = 1 ∧
    (deliverAll initialModel [fanSpeed42, fanSpeed42]).2.length = 2 ∧
    ¬ ((deliverAll initialModel [fanSpeed42, fanSpeed42]).2.length
        = countStateChanges initialModel [fanSpeed42, fanSpeed42]) := by
  decide

/-- Claim C2 (amended): delivering any bus event twice is idempotent on
the model state — the result equals the state after a single delivery —
and the observer is refreshed once per delivery (hence twice), each time
with exactly the arguments of the single delivery, so duplicate delivery
causes no observable corruption. -/
theorem duplicate_delivery_idempotent (aone : ArgonOnePlugin) (e : DBusEvent) :
    (deliverAll aone [e, e]).1 = (deliverAll aone [e]).1 ∧
    (deliverAll aone [e, e]).2
      = (deliverAll aone [e]).2 ++ (deliverAll aone [e]).2 := by
  have h : deliver (deliver aone e).1 e = deliver aone e :=
    argonone_dbus_signal_idem aone e.sender_name e.signal_name e.parameters
  constructor
  · simp [deliverAll, h]
  · simp [deliverAll, h]

/-- Claim C3: `_argonone_set_fan` always issues `SetFanControlEnabled`
first; a `SetFanSpeed` follows exactly when the speed argument is
non-negative.  In particular (FALSE, -1) issues one command and
(TRUE, 75) issues the two commands in order. -/
theorem _argonone_set_fan_command_sequence (enabled : Bool) (speed : Int) :
    (_argonone_set_fan enabled speed).head?
        = some (.setFanControlEnabled enabled) ∧
    (speed < 0 → _argonone_set_fan enabled speed
        = [.setFanControlEnabled enabled]) ∧
    (0 ≤ speed → _argonone_set_fan enabled speed
        = [.setFanControlEnabled enabled, .setFanSpeed speed]) ∧
    _argonone_set_fan false (-1) = [.setFanControlEnabled false] ∧
    _argonone_set_fan true 75
        = [.setFanControlEnabled true, .setFanSpeed 75] := by
  refine ⟨rfl, ?_, ?_, by decide, by decide⟩
  · intro h
    simp [_argonone_set_fan, not_le.mpr h]
  · intro h
    simp [_argonone_set_fan, h]

/-- Witness for the command-sequence property at the two concrete calls
named by the claim. -/
theorem _argonone_set_fan_command_sequence_witness :
    _argonone_set_fan false (-1) = [.setFanControlEnabled false] ∧
    _argonone_set_fan true 75
        = [.setFanControlEnabled true, .setFanSpeed 75] :=
  ⟨(_argonone_set_fan_command_sequence false (-1)).2.1 (by decide),
   (_argonone_set_fan_command_sequence true 75).2.2.1 (by decide)⟩

/-- Claim C9: no range validation or clamping of the speed argument:
every non-negative speed — including values above 100 — is sent verbatim
in a `SetFanSpeed` command, and every negative speed (not only -1)
suppresses the `SetFanSpeed` command. -/
theorem _argonone_set_fan_no_clamping (enabled : Bool) (speed : Int) :
    (0 ≤ speed → _argonone_set_fan enabled speed
        = [.setFanControlEnabled enabled, .setFanSpeed speed]) ∧
    (speed < 0 → _argonone_set_fan enabled speed
        = [.setFanControlEnabled enabled]) := by
  constructor
  · intro h
    simp [_argonone_set_fan, h]
  · intro h
    simp [_argonone_set_fan, not_le.mpr h]

/-- Witness for the no-clamping property at speed 250 (above 100, sent
verbatim) and speed -37 (negative, acts as the keep-current sentinel). -/
theorem _argonone_set_fan_no_clamping_witness :
    _argonone_set_fan true 250
        = [.setFanControlEnabled true, .setFanSpeed 250] ∧
    _argonone_set_fan false (-37) = [.setFanControlEnabled false] :=
  ⟨(_argonone_set_fan_no_clamping true 250).1 (by decide),
   (_argonone_set_fan_no_clamping false (-37)).2 (by decide)⟩

/-- Claim C6: a startup query that gets no reply leaves its field at the
pre-query default — fan_speed = -1, fan_control_enabled = TRUE, and
temperature at the `g_new0` zero-fill (never explicitly set) — each query
is consulted exactly once with no retry, and construction completes. -/
theorem argonone_constructor_query_failure_defaults
    (s : PluginSettings) (r : StartupReplies) :
    (r.getFanSpeed = none → (argonone_constructor_state s r).fan_speed = -1) ∧
    (r.getFanControlEnabled = none →
      (argonone_constructor_state s r).is_fan_control_enabled = true) ∧
    (r.getTemperature = none →
      (argonone_constructor_state s r).temperature = 0) ∧
    (argonone_constructor true s r).isSome = true := by
  obtain ⟨sl, it⟩ := s
  obtain ⟨q1, q2, q3⟩ := r
  refine ⟨?_, ?_, ?_, rfl⟩
  · rintro rfl
    cases sl <;> cases it <;>
      simp [argonone_constructor_state, argonone_update_from_settings,
        argonone_dbus_query_sync, argonone_dbus_method_call_sync]
  · rintro rfl
    cases sl <;> cases it <;>
      simp [argonone_constructor_state, argonone_update_from_settings,
        argonone_dbus_query_sync, argonone_dbus_method_call_sync]
  · rintro rfl
    cases sl <;> cases it <;>
      simp [argonone_constructor_state, argonone_update_from_settings,
        argonone_dbus_query_sync, argonone_dbus_method_call_sync]

/-- Witness for the query-failure defaults with all three queries failing
and absent settings keys. -/
theorem argonone_constructor_query_failure_defaults_witness :
    (argonone_constructor_state ⟨none, none⟩ ⟨none, none, none⟩).fan_speed
        = -1 ∧
    (argonone_constructor_state ⟨none, none⟩
        ⟨none, none, none⟩).is_fan_control_enabled = true ∧
    (argonone_constructor_state ⟨none, none⟩ ⟨none, none, none⟩).temperature
        = 0 ∧
    (argonone_constructor true ⟨none, none⟩ ⟨none, none, none⟩).isSome
        = true :=
  ⟨(argonone_constructor_query_failure_defaults ⟨none, none⟩
      ⟨none, none, none⟩).1 rfl,
   (argonone_constructor_query_failure_defaults ⟨none, none⟩
      ⟨none, none, none⟩).2.1 rfl,
   (argonone_constructor_query_failure_defaults ⟨none, none⟩
      ⟨none, none, none⟩).2.2.1 rfl,
   (argonone_constructor_query_failure_defaults ⟨none, none⟩
      ⟨none, none, none⟩).2.2.2⟩

/-- Claim C8: only a failed proxy creation aborts construction (`g_error`
is fatal, modelled as `none`); with a live connection, construction
completes for every combination of query replies, including all-failed,
and `argonone_dbus_method_call_sync` absorbs call failures, returning the
reply (or NULL) instead of propagating an error. -/
theorem argonone_constructor_connection_only_fatal
    (s : PluginSettings) (r : StartupReplies) (reply : Option GVariant) :
    argonone_constructor true s r = some (argonone_constructor_state s r) ∧
    argonone_constructor false s r = none ∧
    argonone_dbus_method_call_sync reply = reply :=
  ⟨rfl, rfl, rfl⟩
